import Mathlib

set_option maxHeartbeats 1000000

/-!
Verification of the authentication screens of the strapi admin panel
excerpt: the registration page (`src/unnamed/part_000`, component
`Register`) and the reset-password page
(`src/packages/core/admin/admin/src/pages/Auth/components/ResetPassword.tsx`).

The development shallowly embeds the two components: the yup validation
schemas become per-field lists of failing checks (in yup's test order),
`normalizeData` becomes a pure record transformer, and the submit /
response handlers become functions from the form values and the (opaque)
service response to the ordered list of side effects they perform
(network calls, token storage, navigation, error-state mutations).

String operations are re-implemented by structural recursion over the
character list so that every definition evaluates inside the kernel.
External collaborators (the intl message formatter, the API error
formatters) are passed as parameters or represented by their output.
-/

namespace StrapiAuth

/-- Whitespace recognised by the JavaScript string trim operation
(tab, line feed, vertical tab, form feed, carriage return, space,
no-break space). -/
def jsWhitespace (c : Char) : Bool :=
  [9, 10, 11, 12, 13, 32, 160].contains c.toNat

/-- Model of JavaScript `String.prototype.trim`: drop leading and
trailing whitespace. -/
def jsTrim (s : String) : String :=
  ⟨((s.data.dropWhile jsWhitespace).reverse.dropWhile jsWhitespace).reverse⟩

/-- Test of the regular expression `/[a-z]/` used by the password schema. -/
def hasLower (s : String) : Bool := s.data.any Char.isLower

/-- Test of the regular expression `/[A-Z]/` used by the password schema. -/
def hasUpper (s : String) : Bool := s.data.any Char.isUpper

/-- Test of the regular expression `/\d/` used by the password schema. -/
def hasDigit (s : String) : Bool := s.data.any Char.isDigit

/-- Length of a string in characters (the `value.length` of the yup
`min` test; identical to the JavaScript length on the basic plane). -/
def strLen (s : String) : Nat := s.data.length

/-- Model of `String.prototype.toLowerCase` (ASCII letters). -/
def lowerS (s : String) : String := ⟨s.data.map Char.toLower⟩

/-- Split a character list at every occurrence of the separator. -/
def splitOnChar (sep : Char) : List Char → List (List Char)
  | [] => [[]]
  | c :: cs =>
    match splitOnChar sep cs with
    | [] => if c = sep then [[], []] else [[c]]
    | h :: t => if c = sep then [] :: h :: t else (c :: h) :: t

/-- Localised validation message: an id for the translation catalogue and
an English default, exactly as the schemas build them (the `values`
payload of the min-length message is omitted, it carries only the
constant 8). The ids written `translatedErrors.*` stand for the
corresponding keys imported from the helper plugin. -/
structure ErrMsg where
  id : String
  defaultMessage : String
deriving DecidableEq, Repr

def msgFirstnameRequired : ErrMsg :=
  ⟨"translatedErrors.required", "Firstname is required"⟩

def msgPasswordMin : ErrMsg :=
  ⟨"translatedErrors.minLength", "Password must be at least 8 characters"⟩

def msgPasswordLowercase : ErrMsg :=
  ⟨"components.Input.error.contain.lowercase",
   "Password must contain at least 1 lowercase letter"⟩

def msgPasswordUppercase : ErrMsg :=
  ⟨"components.Input.error.contain.uppercase",
   "Password must contain at least 1 uppercase letter"⟩

def msgPasswordNumber : ErrMsg :=
  ⟨"components.Input.error.contain.number",
   "Password must contain at least 1 number"⟩

def msgPasswordRequired : ErrMsg :=
  ⟨"translatedErrors.required", "Password is required"⟩

def msgConfirmRequired : ErrMsg :=
  ⟨"translatedErrors.required", "Confirm password is required"⟩

def msgPasswordsNoMatch : ErrMsg :=
  ⟨"components.Input.error.password.noMatch", "Passwords must match"⟩

def msgRegistrationTokenRequired : ErrMsg :=
  ⟨"translatedErrors.required", "Registration token is required"⟩

def msgEmailInvalid : ErrMsg :=
  ⟨"translatedErrors.email", "Not a valid email"⟩

def msgEmailLowercase : ErrMsg :=
  ⟨"translatedErrors.lowercase", "Email must be lowercase"⟩

def msgEmailRequired : ErrMsg :=
  ⟨"translatedErrors.required", "Email is required"⟩

/-- Values held by the registration form (`RegisterFormValues` in the
source). `registrationToken` is `string | undefined`. -/
structure RegisterFormValues where
  firstname : String
  lastname : String
  email : String
  password : String
  confirmPassword : String
  registrationToken : Option String
  news : Bool
deriving DecidableEq, Repr

/-- Result type of `normalizeData`: `lastname` has become optional. -/
structure NormalizedData where
  firstname : String
  lastname : Option String
  email : String
  password : String
  confirmPassword : String
  registrationToken : Option String
  news : Bool
deriving DecidableEq, Repr

/-- Translation of `normalizeData` (src/unnamed/part_000, lines 515-546).
Every string-valued entry except `password` and `confirmPassword` is
trimmed; `registrationToken`, when present, is a string and is therefore
trimmed too; an absent token stays absent; `news` is a boolean and is
copied. For `lastname` the source first stores the trimmed value and
then immediately overwrites it with `value || undefined`, where `value`
is the original untrimmed string: an empty lastname becomes absent, a
non-empty lastname is kept untrimmed. -/
def normalizeData (d : RegisterFormValues) : NormalizedData :=
  { firstname := jsTrim d.firstname
  , lastname := if d.lastname = "" then none else some d.lastname
  , email := jsTrim d.email
  , password := d.password
  , confirmPassword := d.confirmPassword
  , registrationToken := d.registrationToken.map jsTrim
  , news := d.news }

/-- Failing checks of the `firstname` rule
`yup.string().trim().required(...)`: the trim transform is applied, then
the value must be a non-empty string. -/
def firstnameErrs (firstname : String) : List ErrMsg :=
  if jsTrim firstname = "" then [msgFirstnameRequired] else []

/-- Failures among the four password-policy tests, in the order the
schema declares them: `min(8)`, `matches(/[a-z]/)`, `matches(/[A-Z]/)`,
`matches(/\d/)`. With `abortEarly: false` yup runs every test and
collects the failures in declaration order. -/
def passwordPolicyFailures (password : String) : List ErrMsg :=
  (if strLen password < 8 then [msgPasswordMin] else []) ++
  (if hasLower password then [] else [msgPasswordLowercase]) ++
  (if hasUpper password then [] else [msgPasswordUppercase]) ++
  (if hasDigit password then [] else [msgPasswordNumber])

/-- Failing checks of the full `password` rule: the four policy tests
followed by `required(...)`, which a yup string schema fails exactly on
the empty string (form values are always present strings). -/
def passwordErrs (password : String) : List ErrMsg :=
  passwordPolicyFailures password ++
  (if password = "" then [msgPasswordRequired] else [])

/-- Failing checks of the `confirmPassword` rule
`required(...).oneOf([yup.ref('password'), null], ...)`. The `oneOf`
whitelist is checked by yup in a first phase that, when it fails, stops
the field's validation, so a mismatching value reports only the
no-match message; only a value equal to `password` reaches the
`required` test. -/
def confirmPasswordErrs (confirmPassword password : String) : List ErrMsg :=
  if confirmPassword ≠ password then [msgPasswordsNoMatch]
  else if confirmPassword = "" then [msgConfirmRequired]
  else []

/-- Failing checks of the `registrationToken` rule
`yup.string().required(...)`: absent or empty fails. -/
def registrationTokenErrs (token : Option String) : List ErrMsg :=
  match token with
  | none => [msgRegistrationTokenRequired]
  | some s => if s = "" then [msgRegistrationTokenRequired] else []

/-- Admissible character of an email local part or domain label in the
model of the email format check (lowercase letter or digit). -/
def isLowerAlnum (c : Char) : Bool := c.isLower || c.isDigit

/-- Admissible local part: non-empty, lowercase alphanumerics and dots. -/
def emailLocalOk (cs : List Char) : Bool :=
  !cs.isEmpty && cs.all (fun c => isLowerAlnum c || c.toNat = 46)

/-- Admissible domain: at least two dot-separated non-empty lowercase
alphanumeric labels. -/
def emailDomainOk (cs : List Char) : Bool :=
  match splitOnChar (Char.ofNat 46) cs with
  | [] => false
  | [_] => false
  | labels => labels.all (fun l => !l.isEmpty && l.all isLowerAlnum)

/-- Modelled from the spec: the email-format rule of the admin schema
("email format" in the validation-schema contract). The regular
expression the yup library applies is not part of this excerpt; the
model keeps its shape on the lowercase-alphanumeric core —
`local@label.label...`, matched case-insensitively (the caller passes
the lowercased string). -/
def isEmailFormat (s : String) : Bool :=
  match splitOnChar (Char.ofNat 64) s.data with
  | [lp, dom] => emailLocalOk lp && emailDomainOk dom
  | _ => false

/-- Failing checks of the admin `email` rule
`email(...).strict().lowercase(...).required(...)`, in yup test order:
the format test (case-insensitive, skipped on the empty string), the
strict lowercase test, and `required`. -/
def emailErrs (email : String) : List ErrMsg :=
  (if email ≠ "" ∧ isEmailFormat (lowerS email) = false
   then [msgEmailInvalid] else []) ++
  (if lowerS email ≠ email then [msgEmailLowercase] else []) ++
  (if email = "" then [msgEmailRequired] else [])

/-- Tag every failing check of one field with the field's path. -/
def tagField (path : String) (l : List ErrMsg) : List (String × ErrMsg) :=
  l.map (fun m => (path, m))

/-- Evaluation of `REGISTER_USER_SCHEMA` (src/unnamed/part_000, lines
38-87) on normalized data with `abortEarly: false`: the concatenation of
every field's failing checks, tagged with the field path. `lastname` is
`nullable()` with no tests and never contributes. The empty list means
the values are valid. -/
def REGISTER_USER_SCHEMA (d : NormalizedData) : List (String × ErrMsg) :=
  tagField "firstname" (firstnameErrs d.firstname) ++
  tagField "password" (passwordErrs d.password) ++
  tagField "confirmPassword" (confirmPasswordErrs d.confirmPassword d.password) ++
  tagField "registrationToken" (registrationTokenErrs d.registrationToken)

/-- Evaluation of `REGISTER_ADMIN_SCHEMA` (src/unnamed/part_000, lines
89-149): same firstname, password and confirmPassword rules, no
registrationToken rule, plus the email rule. -/
def REGISTER_ADMIN_SCHEMA (d : NormalizedData) : List (String × ErrMsg) :=
  tagField "firstname" (firstnameErrs d.firstname) ++
  tagField "password" (passwordErrs d.password) ++
  tagField "confirmPassword" (confirmPasswordErrs d.confirmPassword d.password) ++
  tagField "email" (emailErrs d.email)

/-- Evaluation of `RESET_PASSWORD_SCHEMA` (ResetPassword.tsx, lines
21-61): the same password rule and the same confirmPassword rule as the
registration schemas, on the raw form values. -/
def RESET_PASSWORD_SCHEMA (password confirmPassword : String) :
    List (String × ErrMsg) :=
  tagField "password" (passwordErrs password) ++
  tagField "confirmPassword" (confirmPasswordErrs confirmPassword password)

/-- Schema selected by the `Register` component (src/unnamed/part_000,
line 293): the admin schema on the `register-admin` route, the user
schema on the `register` route. -/
def chosenSchemaErrors (isAdminRegistration : Bool) (d : NormalizedData) :
    List (String × ErrMsg) :=
  if isAdminRegistration then REGISTER_ADMIN_SCHEMA d else REGISTER_USER_SCHEMA d

/-- Body of a `registerAdmin` request: the normalized data with
`registrationToken` and `confirmPassword` omitted and `news`
destructured away by the handler. -/
structure AdminBody where
  firstname : String
  lastname : Option String
  email : String
  password : String
deriving DecidableEq, Repr

/-- The `userInfo` part of a `registerUser` request: the normalized data
with `registrationToken`, `confirmPassword`, `email` and `news` omitted. -/
structure UserInfo where
  firstname : String
  lastname : Option String
  password : String
deriving DecidableEq, Repr

/-- Body of a `registerUser` request. -/
structure UserBody where
  userInfo : UserInfo
  registrationToken : String
deriving DecidableEq, Repr

/-- Body of a `resetPassword` request. -/
structure ResetBody where
  password : String
  resetPasswordToken : String
deriving DecidableEq, Repr

/-- Outbound call to the authentication service. -/
inductive ApiCall where
  | registerAdmin (body : AdminBody)
  | registerUser (body : UserBody)
  | resetPassword (body : ResetBody)
deriving DecidableEq, Repr

/-- Side effect performed by the components, in program order. `navigate`
carries the pathname and, for the object form of the call, the search
string. `setFormErrors` carries the field-to-message record handed to
the form helpers. -/
inductive Effect where
  | call (c : ApiCall)
  | setToken (token : String)
  | storeGuidedTourSkipped (value : Bool)
  | setSkipped (value : Bool)
  | track (event : String)
  | enableNpsSurvey
  | navigate (pathname : String) (search : Option String)
  | setFormErrors (errors : List (String × String))
  | setApiError (message : String)
  | setSubmitCount (n : Nat)
  | notify (kind : String) (message : String)
deriving DecidableEq, Repr

/-- Error branch of a mutation response when `isBaseQueryError` holds.
The payloads are represented by what the external formatters produce
from them: `validationError` carries the field-to-message record
returned by `formatValidationErrors`, `otherError` the banner message
returned by `formatAPIError`. -/
inductive BaseQueryError where
  | validationError (fieldErrors : List (String × String))
  | otherError (formatted : String)
deriving DecidableEq, Repr

/-- Role attached to the registered admin in the service response. -/
structure Role where
  code : String
deriving DecidableEq, Repr

/-- Response of the `registerAdmin` mutation: either a payload with the
session token and the optional role list of the created user, or an
error that may fail the `isBaseQueryError` test (`failure none`). -/
inductive AdminRegisterResult where
  | success (token : String) (roles : Option (List Role))
  | failure (e : Option BaseQueryError)
deriving DecidableEq, Repr

/-- Response of the `registerUser` mutation. -/
inductive UserRegisterResult where
  | success (token : String)
  | failure (e : Option BaseQueryError)
deriving DecidableEq, Repr

/-- Response of the `resetPassword` mutation (its error is surfaced by
the component's render from the mutation state, not by the handler). -/
inductive ResetResult where
  | success (token : String)
  | failure
deriving DecidableEq, Repr

/-- JavaScript string interpolation of `boolean | undefined`, used by
the `?hasAdmin=${hasAdmin}` search string. -/
def jsBoolOptToString : Option Bool → String
  | some true => "true"
  | some false => "false"
  | none => "undefined"

/-- Translation of `handleRegisterAdmin` (src/unnamed/part_000, lines
204-248): dispatch the call; on success store the token, run the
guided-tour effects when a `strapi-super-admin` role is present, then
navigate to `/usecase?hasAdmin=true` (enabling the survey first) when
the news checkbox was ticked, else to `/`; on a base-query error track
the failure, then either hand the server validation errors to the form
or surface the formatted message; a non-base-query error does nothing. -/
def handleRegisterAdmin (news : Bool) (body : AdminBody)
    (res : AdminRegisterResult) : List Effect :=
  Effect.call (ApiCall.registerAdmin body) ::
  match res with
  | AdminRegisterResult.success token roles =>
    Effect.setToken token ::
    ((match roles with
      | some rs =>
        if rs.any (fun r => r.code == "strapi-super-admin") then
          [Effect.storeGuidedTourSkipped false, Effect.setSkipped false,
           Effect.track "didLaunchGuidedtour"]
        else []
      | none => []) ++
     (if news then
        [Effect.enableNpsSurvey, Effect.navigate "/usecase" (some "?hasAdmin=true")]
      else [Effect.navigate "/" none]))
  | AdminRegisterResult.failure none => []
  | AdminRegisterResult.failure (some (BaseQueryError.validationError errs)) =>
    [Effect.track "didNotCreateFirstAdmin", Effect.setFormErrors errs]
  | AdminRegisterResult.failure (some (BaseQueryError.otherError msg)) =>
    [Effect.track "didNotCreateFirstAdmin", Effect.setApiError msg]

/-- Translation of `handleRegisterUser` (src/unnamed/part_000, lines
250-282): as the admin handler but without the role inspection, and the
`/usecase` search string interpolates the component's `hasAdmin` prop. -/
def handleRegisterUser (hasAdmin : Option Bool) (news : Bool)
    (body : UserBody) (res : UserRegisterResult) : List Effect :=
  Effect.call (ApiCall.registerUser body) ::
  match res with
  | UserRegisterResult.success token =>
    Effect.setToken token ::
    (if news then
       [Effect.enableNpsSurvey,
        Effect.navigate "/usecase" (some ("?hasAdmin=" ++ jsBoolOptToString hasAdmin))]
     else [Effect.navigate "/" none])
  | UserRegisterResult.failure none => []
  | UserRegisterResult.failure (some (BaseQueryError.validationError errs)) =>
    [Effect.track "didNotCreateFirstAdmin", Effect.setFormErrors errs]
  | UserRegisterResult.failure (some (BaseQueryError.otherError msg)) =>
    [Effect.track "didNotCreateFirstAdmin", Effect.setApiError msg]

/-- JavaScript truthiness of the optional `registrationToken` string. -/
def tokenTruthy : Option String → Bool
  | none => false
  | some s => s != ""

/-- JavaScript object write `acc[k] = v` on a record represented as a
key-ordered association list: an existing key keeps its position and
receives the new value, a new key is appended. -/
def setKey (acc : List (String × String)) (k v : String) :
    List (String × String) :=
  if acc.any (fun p => p.1 == k) then
    acc.map (fun p => if p.1 = k then (k, v) else p)
  else acc ++ [(k, v)]

/-- Translation of the `err.inner.reduce` of the Register submit catch
(src/unnamed/part_000, lines 366-371): fold the flat list of failing
checks into a record keyed by field path. Every schema message is an
object, so the `typeof message === 'object'` filter always passes. -/
def reduceErrors (l : List (String × String)) : List (String × String) :=
  l.foldl (fun acc p => setKey acc p.1 p.2) []

/-- Value stored under a key of a record represented as an association
list. -/
def lookupKey (m : List (String × String)) (k : String) : Option String :=
  (m.find? (fun p => p.1 == k)).map (fun p => p.2)

/-- Translation of the `onSubmit` handler of the Register form
(src/unnamed/part_000, lines 333-376), as a function of the route
variant, the current submit count, the `hasAdmin` prop, the intl
formatter, the two possible service responses and the submitted values,
to the ordered effect list. The values are normalized, then validated
against the variant's schema; on success the handler chosen by the
truthiness of the normalized `registrationToken` dispatches (the tracked
resubmission event firing first on the admin variant); on failure the
flat error list is reduced to a per-field record with the later failing
check of a field overwriting the earlier one, and the submit count is
bumped. -/
def registerOnSubmit (isAdminRegistration : Bool) (submitCount : Nat)
    (hasAdmin : Option Bool) (fmtMsg : ErrMsg → String)
    (adminRes : AdminRegisterResult) (userRes : UserRegisterResult)
    (v : RegisterFormValues) : List Effect :=
  if chosenSchemaErrors isAdminRegistration (normalizeData v) = [] then
    (if 0 < submitCount ∧ isAdminRegistration then
       [Effect.track "didSubmitWithErrorsFirstAdmin"]
     else []) ++
    (if tokenTruthy (normalizeData v).registrationToken then
       handleRegisterUser hasAdmin (normalizeData v).news
         ⟨⟨(normalizeData v).firstname, (normalizeData v).lastname,
           (normalizeData v).password⟩,
          (normalizeData v).registrationToken.getD ""⟩
         userRes
     else
       handleRegisterAdmin (normalizeData v).news
         ⟨(normalizeData v).firstname, (normalizeData v).lastname,
          (normalizeData v).email, (normalizeData v).password⟩ adminRes)
  else
    [Effect.setFormErrors
       (reduceErrors ((chosenSchemaErrors isAdminRegistration (normalizeData v)).map
          (fun p => (p.1, fmtMsg p.2)))),
     Effect.setSubmitCount (submitCount + 1)]

/-- Network calls dispatched among a list of effects. -/
def calls (effects : List Effect) : List ApiCall :=
  effects.filterMap (fun e =>
    match e with
    | Effect.call c => some c
    | _ => none)

/-- Navigations performed among a list of effects. -/
def navigations (effects : List Effect) : List (String × Option String) :=
  effects.filterMap (fun e =>
    match e with
    | Effect.navigate p s => some (p, s)
    | _ => none)

/-- First field-error record handed to the form among a list of effects. -/
def firstSetFormErrors (effects : List Effect) :
    Option (List (String × String)) :=
  effects.findSome? (fun e =>
    match e with
    | Effect.setFormErrors m => some m
    | _ => none)

/-- Translation of `handleSubmit` of the ResetPassword component
(ResetPassword.tsx, lines 73-80): dispatch the call; on success store
the token and navigate home; on failure do nothing (the error is
rendered from the mutation state). -/
def resetHandleSubmit (body : ResetBody) (res : ResetResult) : List Effect :=
  Effect.call (ApiCall.resetPassword body) ::
  match res with
  | ResetResult.success token => [Effect.setToken token, Effect.navigate "/" none]
  | ResetResult.failure => []

/-- Modelled from the spec: the shared `Form` component that the reset
page mounts with `validationSchema` is outside this excerpt; per the
submission-dispatcher contract it first evaluates the schema and, only
if the values are valid, invokes the page's `onSubmit` — which builds
`{password, resetPasswordToken: code}` from the form values and the
`code` query parameter (ResetPassword.tsx, lines 114-125) — and
otherwise populates the field errors and stops. -/
def resetFormSubmit (code : String) (password confirmPassword : String)
    (res : ResetResult) (fmtMsg : ErrMsg → String) : List Effect :=
  if RESET_PASSWORD_SCHEMA password confirmPassword = [] then
    resetHandleSubmit ⟨password, code⟩ res
  else
    [Effect.setFormErrors
       (reduceErrors ((RESET_PASSWORD_SCHEMA password confirmPassword).map
          (fun p => (p.1, fmtMsg p.2))))]

/-- What the Register component mounts: either an immediate redirect or
the registration form of one of the two variants. -/
inductive RegisterView where
  | redirect (dest : String)
  | form (isAdminRegistration : Bool)
deriving DecidableEq, Repr

/-- Translation of the route guard of `Register` (src/unnamed/part_000,
lines 284-293): no match of `/auth/:authType`, or an `authType` other
than `register` and `register-admin`, redirects to `/`; otherwise the
form renders, the admin variant exactly on `register-admin`. -/
def registerRender (authType : Option String) : RegisterView :=
  match authType with
  | none => RegisterView.redirect "/"
  | some t =>
    if t ≠ "register" ∧ t ≠ "register-admin" then RegisterView.redirect "/"
    else RegisterView.form (t == "register-admin")

/-- What the ResetPassword component mounts. -/
inductive ResetView where
  | redirect (dest : String)
  | form
deriving DecidableEq, Repr

/-- Translation of the entry guard of `ResetPassword`
(ResetPassword.tsx, lines 85-87): a missing (or empty, hence falsy)
`code` query parameter redirects to the login page before any form is
rendered. -/
def resetRender (code : Option String) : ResetView :=
  if code.getD "" = "" then ResetView.redirect "/auth/login" else ResetView.form

/-- Hexadecimal digit (uppercase) of a value below 16. -/
def hexDigit (n : Nat) : Char :=
  Char.ofNat (if n < 10 then 48 + n else 55 + n)

/-- Percent-encoding of one byte. -/
def percentEncode (b : Nat) : List Char :=
  [Char.ofNat 37, hexDigit (b / 16), hexDigit (b % 16)]

/-- UTF-8 bytes of a code point. -/
def utf8Bytes (n : Nat) : List Nat :=
  if n < 128 then [n]
  else if n < 2048 then [192 + n / 64, 128 + n % 64]
  else if n < 65536 then [224 + n / 4096, 128 + (n / 64) % 64, 128 + n % 64]
  else [240 + n / 262144, 128 + (n / 4096) % 64, 128 + (n / 64) % 64, 128 + n % 64]

/-- Characters `encodeURIComponent` leaves unescaped besides the ASCII
alphanumerics: hyphen, dot, exclamation mark, tilde, asterisk, quote,
parentheses, underscore. -/
def uriUnreservedCodes : List Nat := [45, 46, 33, 126, 42, 39, 40, 41, 95]

def isUriUnreserved (c : Char) : Bool :=
  c.isAlpha || c.isDigit || uriUnreservedCodes.contains c.toNat

/-- Model of the JavaScript `encodeURIComponent`: unreserved characters
are copied, every other character is replaced by the percent-encoding of
its UTF-8 bytes. -/
def encodeURIComponent (s : String) : String :=
  ⟨(s.data.map (fun c =>
      if isUriUnreserved c then [c]
      else ((utf8Bytes c.toNat).map percentEncode).flatten)).flatten⟩

/-- Error of the `useGetRegistrationInfoQuery` pre-fetch, represented by
what the component extracts from it: `baseQuery` carries the message
`formatAPIError` produces, `plain` the optional `error.message` of a
non-base-query error. -/
inductive RegistrationInfoError where
  | baseQuery (formatted : String)
  | plain (message : Option String)
deriving DecidableEq, Repr

/-- Message the effect hook computes from the pre-fetch error:
`formatAPIError(error)` for a base-query error, `error.message ?? ''`
otherwise. -/
def registrationInfoErrorMessage : RegistrationInfoError → String
  | RegistrationInfoError.baseQuery m => m
  | RegistrationInfoError.plain m => m.getD ""

/-- Translation of the registration-info effect hook
(src/unnamed/part_000, lines 187-198): nothing without an error; on an
error, a warning notification with the computed message followed by a
navigation to `/auth/oops` carrying the URI-encoded message in the
`info` query parameter. -/
def registerInfoEffect : Option RegistrationInfoError → List Effect
  | none => []
  | some e =>
    [Effect.notify "warning" (registrationInfoErrorMessage e),
     Effect.navigate
       ("/auth/oops?info=" ++ encodeURIComponent (registrationInfoErrorMessage e))
       none]

/-! Properties of the record model: the JavaScript object write is
last-wins per key, and folding the flat error list into a record makes
the value stored under a path the last message emitted for that path. -/

/-- Searching a key commutes with a key-preserving map. -/
theorem find_key_map (acc : List (String × String))
    (f : String × String → String × String) (hf : ∀ p, (f p).1 = p.1)
    (q : String) :
    (acc.map f).find? (fun p => p.1 == q) =
      (acc.find? (fun p => p.1 == q)).map f := by
  induction acc with
  | nil => rfl
  | cons p t ih =>
    simp only [List.map_cons, List.find?_cons, hf p]
    cases h : (p.1 == q) <;> simp [ih]

/-- Reading a key after a JavaScript object write: the written key holds
the new value, every other key is untouched. -/
theorem lookupKey_setKey (acc : List (String × String)) (k v q : String) :
    lookupKey (setKey acc k v) q = if q = k then some v else lookupKey acc q := by
  unfold setKey lookupKey
  by_cases hany : acc.any (fun p => p.1 == k)
  · rw [if_pos hany]
    rw [find_key_map acc _ (fun p => by by_cases h : p.1 = k <;> simp [h]) q]
    by_cases hqk : q = k
    · subst hqk
      obtain ⟨p, hp, hpk⟩ := List.any_eq_true.mp hany
      have hsome : (acc.find? (fun x => x.1 == q)).isSome = true :=
        List.find?_isSome.mpr ⟨p, hp, hpk⟩
      obtain ⟨r, hr⟩ := Option.isSome_iff_exists.mp hsome
      have hrq : r.1 = q := by simpa using List.find?_some hr
      simp [hr, hrq]
    · rw [if_neg hqk]
      cases hfind : acc.find? (fun p => p.1 == q) with
      | none => simp [hfind]
      | some r =>
        have hrq : r.1 = q := by simpa using List.find?_some hfind
        have hrk : r.1 ≠ k := by rw [hrq]; exact hqk
        simp [hfind, hrk]
  · rw [if_neg hany]
    rw [List.find?_append]
    have hnone : acc.find? (fun p => p.1 == k) = none := by
      rw [List.find?_eq_none]
      intro x hx hxk
      exact hany (List.any_eq_true.mpr ⟨x, hx, hxk⟩)
    by_cases hqk : q = k
    · subst hqk
      simp [hnone]
    · have : (k == q) = false := by simp [Ne.symm hqk]
      cases hfind : acc.find? (fun p => p.1 == q) <;>
        simp [hfind, List.find?_cons, this, hqk]

/-- Last value written at a key among a flat list of key-value pairs. -/
def lastVal (l : List (String × String)) (k : String) : Option String :=
  ((l.filter (fun p => p.1 == k)).getLast?).map (fun p => p.2)

/-- Reading a key after folding a flat pair list into a record over an
arbitrary start record: the last pair written at the key wins, the start
record answers when the key never occurs. -/
theorem lookupKey_foldl_setKey (l : List (String × String))
    (acc : List (String × String)) (k : String) :
    lookupKey (l.foldl (fun a p => setKey a p.1 p.2) acc) k =
      match lastVal l k with
      | some v => some v
      | none => lookupKey acc k := by
  induction l generalizing acc with
  | nil => simp [lastVal]
  | cons p t ih =>
    simp only [List.foldl_cons]
    rw [ih]
    by_cases hpk : p.1 = k
    · have hfil : (p :: t).filter (fun x => x.1 == k) =
          p :: t.filter (fun x => x.1 == k) := by
        simp [List.filter_cons, hpk]
      cases hlast : (t.filter (fun x => x.1 == k)).getLast? with
      | some q =>
        have h1 : lastVal t k = some q.2 := by simp [lastVal, hlast]
        have h2 : lastVal (p :: t) k = some q.2 := by
          simp [lastVal, hfil, List.getLast?_cons, hlast]
        rw [h1, h2]
      | none =>
        have h1 : lastVal t k = none := by simp [lastVal, hlast]
        have h2 : lastVal (p :: t) k = some p.2 := by
          simp [lastVal, hfil, List.getLast?_cons, hlast]
        rw [h1, h2, lookupKey_setKey]
        rw [if_pos hpk.symm]
    · have hfil : (p :: t).filter (fun x => x.1 == k) =
          t.filter (fun x => x.1 == k) := by
        simp [List.filter_cons, hpk]
      have h2 : lastVal (p :: t) k = lastVal t k := by simp [lastVal, hfil]
      rw [h2]
      cases hlast : lastVal t k with
      | some q => rfl
      | none =>
        simp only
        rw [lookupKey_setKey]
        have hkp : ¬ k = p.1 := fun hp => hpk hp.symm
        rw [if_neg hkp]

/-- Reading a key of the reduced error record yields the last message
the flat list contains for that key. -/
theorem lookupKey_reduceErrors (l : List (String × String)) (k : String) :
    lookupKey (reduceErrors l) k = lastVal l k := by
  unfold reduceErrors
  rw [lookupKey_foldl_setKey]
  cases h : lastVal l k <;> simp [lookupKey]

/-- A JavaScript object write never empties the record. -/
theorem setKey_ne_nil (acc : List (String × String)) (k v : String) :
    setKey acc k v ≠ [] := by
  unfold setKey
  by_cases h : acc.any (fun p => p.1 == k)
  · rw [if_pos h]
    obtain ⟨x, hx, _⟩ := List.any_eq_true.mp h
    cases acc with
    | nil => cases hx
    | cons a t => simp
  · rw [if_neg h]; simp

theorem foldl_setKey_ne_nil (t : List (String × String))
    (acc : List (String × String)) (h : acc ≠ []) :
    t.foldl (fun a p => setKey a p.1 p.2) acc ≠ [] := by
  induction t generalizing acc with
  | nil => exact h
  | cons p t ih => exact ih _ (setKey_ne_nil _ _ _)

/-- Reducing a non-empty error list yields a non-empty record. -/
theorem reduceErrors_ne_nil (l : List (String × String)) (h : l ≠ []) :
    reduceErrors l ≠ [] := by
  obtain ⟨p, t, rfl⟩ := List.exists_cons_of_ne_nil h
  unfold reduceErrors
  simp only [List.foldl_cons]
  exact foldl_setKey_ne_nil t _ (setKey_ne_nil _ _ _)

/-- Filtering a single-field tagged segment by path keeps everything or
nothing, according to whether the paths agree. -/
theorem filter_tagMap (l : List ErrMsg) (f : ErrMsg → String)
    (path k : String) :
    ((l.map (fun m => (path, f m))).filter (fun p => p.1 == k)) =
      if path = k then l.map (fun m => (path, f m)) else [] := by
  by_cases h : path = k
  · subst h
    simp [List.filter_map, Function.comp_def]
  · simp [List.filter_map, Function.comp_def, h]

/-- Formatting the messages of a tagged segment. -/
theorem tagField_map_fmt (path : String) (l : List ErrMsg)
    (fmt : ErrMsg → String) :
    (tagField path l).map (fun p => (p.1, fmt p.2)) =
      l.map (fun m => (path, fmt m)) := by
  simp [tagField, List.map_map, Function.comp_def]

/-- Branch taken by the Register submit handler on invalid values. -/
theorem registerOnSubmit_invalid (isAdmin : Bool) (n : Nat) (hA : Option Bool)
    (fmt : ErrMsg → String) (aRes : AdminRegisterResult)
    (uRes : UserRegisterResult) (v : RegisterFormValues)
    (h : chosenSchemaErrors isAdmin (normalizeData v) ≠ []) :
    registerOnSubmit isAdmin n hA fmt aRes uRes v =
      [Effect.setFormErrors
         (reduceErrors ((chosenSchemaErrors isAdmin (normalizeData v)).map
            (fun p => (p.1, fmt p.2)))),
       Effect.setSubmitCount (n + 1)] := by
  unfold registerOnSubmit
  rw [if_neg h]

/-- Branch taken by the Register submit handler on valid values. -/
theorem registerOnSubmit_valid (isAdmin : Bool) (n : Nat) (hA : Option Bool)
    (fmt : ErrMsg → String) (aRes : AdminRegisterResult)
    (uRes : UserRegisterResult) (v : RegisterFormValues)
    (h : chosenSchemaErrors isAdmin (normalizeData v) = []) :
    registerOnSubmit isAdmin n hA fmt aRes uRes v =
      (if 0 < n ∧ isAdmin then [Effect.track "didSubmitWithErrorsFirstAdmin"]
       else []) ++
      (if tokenTruthy (normalizeData v).registrationToken then
         handleRegisterUser hA (normalizeData v).news
           ⟨⟨(normalizeData v).firstname, (normalizeData v).lastname,
             (normalizeData v).password⟩,
            (normalizeData v).registrationToken.getD ""⟩ uRes
       else
         handleRegisterAdmin (normalizeData v).news
           ⟨(normalizeData v).firstname, (normalizeData v).lastname,
            (normalizeData v).email, (normalizeData v).password⟩ aRes) := by
  unfold registerOnSubmit
  rw [if_pos h]

/-- The admin handler dispatches exactly one call, to `registerAdmin`,
whatever the response. -/
theorem calls_handleRegisterAdmin (news : Bool) (body : AdminBody)
    (res : AdminRegisterResult) :
    calls (handleRegisterAdmin news body res) = [ApiCall.registerAdmin body] := by
  rcases res with ⟨token, roles⟩ | e
  · rcases roles with _ | rs
    · cases news <;> rfl
    · cases hr : rs.any (fun r => r.code == "strapi-super-admin") <;>
        cases news <;>
        simp [handleRegisterAdmin, calls, hr]
  · rcases e with _ | e
    · rfl
    · rcases e with errs | msg <;> rfl

/-- The user handler dispatches exactly one call, to `registerUser`,
whatever the response. -/
theorem calls_handleRegisterUser (hA : Option Bool) (news : Bool)
    (body : UserBody) (res : UserRegisterResult) :
    calls (handleRegisterUser hA news body res) = [ApiCall.registerUser body] := by
  rcases res with token | e
  · cases news <;> rfl
  · rcases e with _ | e
    · rfl
    · rcases e with errs | msg <;> rfl

/-- Concatenation distributes over the extraction of calls. -/
theorem calls_append (l1 l2 : List Effect) :
    calls (l1 ++ l2) = calls l1 ++ calls l2 := by
  unfold calls
  exact List.filterMap_append l1 l2 _

/-- A conditional tracking event contributes no call. -/
theorem calls_track_if (c : Prop) [Decidable c] (s : String) :
    calls (if c then [Effect.track s] else []) = [] := by
  split <;> rfl

/-! Claim theorems. -/

/-- C1: for every submission of the registration form whose values fail
the client-side validation schema of the selected variant, the per-field
error state is populated — a non-empty field-to-message record is handed
to the form helpers — and no network call, neither `registerAdmin` nor
`registerUser`, is dispatched. -/
theorem invalid_submission_stops (isAdmin : Bool) (n : Nat) (hA : Option Bool)
    (fmt : ErrMsg → String) (aRes : AdminRegisterResult)
    (uRes : UserRegisterResult) (v : RegisterFormValues)
    (h : chosenSchemaErrors isAdmin (normalizeData v) ≠ []) :
    calls (registerOnSubmit isAdmin n hA fmt aRes uRes v) = [] ∧
    firstSetFormErrors (registerOnSubmit isAdmin n hA fmt aRes uRes v) =
      some (reduceErrors ((chosenSchemaErrors isAdmin (normalizeData v)).map
        (fun p => (p.1, fmt p.2)))) ∧
    reduceErrors ((chosenSchemaErrors isAdmin (normalizeData v)).map
      (fun p => (p.1, fmt p.2))) ≠ [] := by
  rw [registerOnSubmit_invalid isAdmin n hA fmt aRes uRes v h]
  refine ⟨rfl, rfl, ?_⟩
  apply reduceErrors_ne_nil
  simpa using h

/-- Witness for C1 at the all-empty form values of the user variant. -/
theorem invalid_submission_stops_witness :
    chosenSchemaErrors false (normalizeData
      { firstname := "", lastname := "", email := "", password := "",
        confirmPassword := "", registrationToken := none, news := false }) ≠ [] ∧
    calls (registerOnSubmit false 0 none ErrMsg.defaultMessage
      (AdminRegisterResult.failure none) (UserRegisterResult.failure none)
      { firstname := "", lastname := "", email := "", password := "",
        confirmPassword := "", registrationToken := none, news := false }) = [] :=
  ⟨by decide,
   (invalid_submission_stops false 0 none ErrMsg.defaultMessage
     (AdminRegisterResult.failure none) (UserRegisterResult.failure none)
     { firstname := "", lastname := "", email := "", password := "",
       confirmPassword := "", registrationToken := none, news := false }
     (by decide)).1⟩

/-- C2 (amended): when the password fails at least two of the four
policy checks, exactly one message is stored under the `password` key of
the surfaced error record, namely the formatted message of the LAST
failing check of the field in yup's test order — length, lowercase,
uppercase, digit, required — because the catch-handler reduce writes the
field's failures in order and a later write overwrites an earlier one. -/
theorem password_error_surfaces_last (isAdmin : Bool) (n : Nat)
    (hA : Option Bool) (fmt : ErrMsg → String) (aRes : AdminRegisterResult)
    (uRes : UserRegisterResult) (v : RegisterFormValues)
    (h : 2 ≤ (passwordPolicyFailures v.password).length) :
    (firstSetFormErrors (registerOnSubmit isAdmin n hA fmt aRes uRes v)).bind
      (fun m => lookupKey m "password") =
      ((passwordErrs v.password).getLast?).map fmt := by
  have hpw : passwordErrs v.password ≠ [] := by
    intro hc
    unfold passwordErrs at hc
    rw [List.append_eq_nil] at hc
    rw [hc.1] at h
    simp at h
  have hpw2 : passwordErrs (normalizeData v).password ≠ [] := hpw
  have hne : chosenSchemaErrors isAdmin (normalizeData v) ≠ [] := by
    intro hc
    apply hpw2
    cases isAdmin <;>
      (simp [chosenSchemaErrors, REGISTER_USER_SCHEMA, REGISTER_ADMIN_SCHEMA,
         tagField, List.append_eq_nil] at hc;
       exact hc.2.1)
  have hmain : lookupKey (reduceErrors
      ((chosenSchemaErrors isAdmin (normalizeData v)).map
        (fun p => (p.1, fmt p.2)))) "password" =
      ((passwordErrs v.password).getLast?).map fmt := by
    rw [lookupKey_reduceErrors]
    unfold lastVal
    cases isAdmin <;>
      simp [chosenSchemaErrors, REGISTER_USER_SCHEMA, REGISTER_ADMIN_SCHEMA,
        List.map_append, List.filter_append, tagField_map_fmt, filter_tagMap,
        List.getLast?_map, Option.map_map, Function.comp_def] <;>
      rfl
  rw [registerOnSubmit_invalid isAdmin n hA fmt aRes uRes v hne]
  exact hmain

/-- Witness for C2 (amended) at password `abcdefgh`, which fails the
uppercase and the digit checks. -/
theorem password_error_surfaces_last_witness :
    2 ≤ (passwordPolicyFailures "abcdefgh").length ∧
    (firstSetFormErrors (registerOnSubmit false 0 none ErrMsg.defaultMessage
        (AdminRegisterResult.failure none) (UserRegisterResult.failure none)
        { firstname := "John", lastname := "", email := "",
          password := "abcdefgh", confirmPassword := "abcdefgh",
          registrationToken := some "tok", news := false })).bind
      (fun m => lookupKey m "password") =
      ((passwordErrs "abcdefgh").getLast?).map ErrMsg.defaultMessage :=
  ⟨by decide,
   password_error_surfaces_last false 0 none ErrMsg.defaultMessage
     (AdminRegisterResult.failure none) (UserRegisterResult.failure none)
     { firstname := "John", lastname := "", email := "",
       password := "abcdefgh", confirmPassword := "abcdefgh",
       registrationToken := some "tok", news := false }
     (by decide)⟩

/-- C2 counterexample: for the password `abcdefgh` the failing checks
are, in order, uppercase then digit; the claim predicts the surfaced
message of the FIRST failing check (uppercase), but the code surfaces
the digit message — the last failing check wins the reduce. -/
theorem password_first_failing_counterexample :
    (firstSetFormErrors (registerOnSubmit false 0 none ErrMsg.defaultMessage
        (AdminRegisterResult.failure none) (UserRegisterResult.failure none)
        { firstname := "John", lastname := "", email := "",
          password := "abcdefgh", confirmPassword := "abcdefgh",
          registrationToken := some "tok", news := false })).bind
      (fun m => lookupKey m "password") =
      some "Password must contain at least 1 number" ∧
    (passwordPolicyFailures "abcdefgh").head? = some msgPasswordUppercase ∧
    msgPasswordUppercase.defaultMessage =
      "Password must contain at least 1 uppercase letter" ∧
    ("Password must contain at least 1 number" : String) ≠
      "Password must contain at least 1 uppercase letter" := by
  decide

/-- C3: `normalizeData` trims the firstname, the email and the
registration token and maps an empty lastname to an absent value, but —
contrary to the claim and to the function's own doc comment ("Trims all
values but the password") — a non-empty lastname is returned untrimmed,
because the `value || undefined` overwrite uses the original value. -/
theorem normalizeData_lastname_untrimmed :
    normalizeData
      { firstname := " John ", lastname := " Doe ",
        email := " Mail@Example.com ", password := " p ",
        confirmPassword := " p ", registrationToken := some " tok ",
        news := false } =
      { firstname := "John", lastname := some " Doe ",
        email := "Mail@Example.com", password := " p ",
        confirmPassword := " p ", registrationToken := some "tok",
        news := false } ∧
    (normalizeData
      { firstname := "J", lastname := "", email := "e@x.co", password := "p",
        confirmPassword := "p", registrationToken := none,
        news := true }).lastname = none ∧
    jsTrim " Doe " = "Doe" ∧
    some " Doe " ≠ some "Doe" := by
  decide

/-- C4: on a server-side `ValidationError` response, both registration
handlers hand exactly the server-provided field-to-message record (the
output of `formatValidationErrors`) to the form error state, and neither
performs any navigation. -/
theorem server_validation_errors_displayed (news : Bool) (bodyA : AdminBody)
    (hA : Option Bool) (bodyU : UserBody) (errs : List (String × String)) :
    handleRegisterAdmin news bodyA
      (AdminRegisterResult.failure (some (BaseQueryError.validationError errs))) =
      [Effect.call (ApiCall.registerAdmin bodyA),
       Effect.track "didNotCreateFirstAdmin", Effect.setFormErrors errs] ∧
    handleRegisterUser hA news bodyU
      (UserRegisterResult.failure (some (BaseQueryError.validationError errs))) =
      [Effect.call (ApiCall.registerUser bodyU),
       Effect.track "didNotCreateFirstAdmin", Effect.setFormErrors errs] ∧
    navigations (handleRegisterAdmin news bodyA
      (AdminRegisterResult.failure (some (BaseQueryError.validationError errs)))) = [] ∧
    navigations (handleRegisterUser hA news bodyU
      (UserRegisterResult.failure (some (BaseQueryError.validationError errs)))) = [] :=
  ⟨rfl, rfl, rfl, rfl⟩

/-- C5: on a successful admin registration whose response contains the
`strapi-super-admin` role, the session token is stored first and the
flow then navigates to `/usecase` with search `?hasAdmin=true` when the
news checkbox is true, and to `/` otherwise. -/
theorem admin_success_superadmin_navigation (token : String)
    (roles : List Role) (news : Bool) (body : AdminBody)
    (h : Role.mk "strapi-super-admin" ∈ roles) :
    handleRegisterAdmin news body
      (AdminRegisterResult.success token (some roles)) =
      [Effect.call (ApiCall.registerAdmin body), Effect.setToken token,
       Effect.storeGuidedTourSkipped false, Effect.setSkipped false,
       Effect.track "didLaunchGuidedtour"] ++
      (if news then
         [Effect.enableNpsSurvey,
          Effect.navigate "/usecase" (some "?hasAdmin=true")]
       else [Effect.navigate "/" none]) := by
  have hany : roles.any (fun r => r.code == "strapi-super-admin") = true :=
    List.any_eq_true.mpr ⟨_, h, by simp⟩
  cases news <;> simp [handleRegisterAdmin, hany]

/-- Witness for C5 at a concrete successful response with the super-admin
role and the news checkbox ticked. -/
theorem admin_success_superadmin_navigation_witness :
    Role.mk "strapi-super-admin" ∈ [Role.mk "strapi-super-admin"] ∧
    handleRegisterAdmin true
      { firstname := "John", lastname := some "Doe",
        email := "john@example.com", password := "Abcdef12" }
      (AdminRegisterResult.success "tok" (some [Role.mk "strapi-super-admin"])) =
      [Effect.call (ApiCall.registerAdmin
         { firstname := "John", lastname := some "Doe",
           email := "john@example.com", password := "Abcdef12" }),
       Effect.setToken "tok", Effect.storeGuidedTourSkipped false,
       Effect.setSkipped false, Effect.track "didLaunchGuidedtour"] ++
      (if true then
         [Effect.enableNpsSurvey,
          Effect.navigate "/usecase" (some "?hasAdmin=true")]
       else [Effect.navigate "/" none]) :=
  ⟨by decide,
   admin_success_superadmin_navigation "tok" [Role.mk "strapi-super-admin"] true
     { firstname := "John", lastname := some "Doe",
       email := "john@example.com", password := "Abcdef12" }
     (by decide)⟩

/-- C6: submitting the reset-password form with query code `abc123` and
password and confirmation both `Abcdef12` dispatches exactly one call,
to `resetPassword`, with body
`{password: "Abcdef12", resetPasswordToken: "abc123"}`, whatever the
response and the message formatter. -/
theorem reset_submit_single_call (res : ResetResult) (fmt : ErrMsg → String) :
    calls (resetFormSubmit "abc123" "Abcdef12" "Abcdef12" res fmt) =
      [ApiCall.resetPassword
        { password := "Abcdef12", resetPasswordToken := "abc123" }] := by
  unfold resetFormSubmit
  rw [if_pos (by decide)]
  cases res <;> rfl

/-- C7: when the entry precondition fails the components redirect
without rendering a form: the reset-password view without a `code` query
parameter redirects to `/auth/login`, and the registration view with a
route parameter other than `register` and `register-admin` — or without
a route match at all — redirects to `/`. -/
theorem entry_guards_redirect (t : String) (h1 : t ≠ "register")
    (h2 : t ≠ "register-admin") :
    resetRender none = ResetView.redirect "/auth/login" ∧
    registerRender (some t) = RegisterView.redirect "/" ∧
    registerRender none = RegisterView.redirect "/" := by
  refine ⟨rfl, ?_, rfl⟩
  have hr : registerRender (some t) =
      if t ≠ "register" ∧ t ≠ "register-admin" then RegisterView.redirect "/"
      else RegisterView.form (t == "register-admin") := rfl
  rw [hr, if_pos ⟨h1, h2⟩]

/-- Witness for C7 at the route parameter `forgot-password`. -/
theorem entry_guards_redirect_witness :
    ("forgot-password" : String) ≠ "register" ∧
    registerRender (some "forgot-password") = RegisterView.redirect "/" :=
  ⟨by decide,
   (entry_guards_redirect "forgot-password" (by decide) (by decide)).2.1⟩

/-- C8: in all three schemas, `confirmPassword` is reported invalid (the
no-match message is among its failing checks) whenever its value differs
from the password value, whether or not the password itself is valid. -/
theorem confirmPassword_mismatch_reported (d : NormalizedData) (p c : String)
    (h1 : d.confirmPassword ≠ d.password) (h2 : c ≠ p) :
    ("confirmPassword", msgPasswordsNoMatch) ∈ REGISTER_USER_SCHEMA d ∧
    ("confirmPassword", msgPasswordsNoMatch) ∈ REGISTER_ADMIN_SCHEMA d ∧
    ("confirmPassword", msgPasswordsNoMatch) ∈ RESET_PASSWORD_SCHEMA p c := by
  have hd : confirmPasswordErrs d.confirmPassword d.password =
      [msgPasswordsNoMatch] := by
    simp [confirmPasswordErrs, h1]
  have hc : confirmPasswordErrs c p = [msgPasswordsNoMatch] := by
    simp [confirmPasswordErrs, h2]
  refine ⟨?_, ?_, ?_⟩ <;>
    simp [REGISTER_USER_SCHEMA, REGISTER_ADMIN_SCHEMA, RESET_PASSWORD_SCHEMA,
      tagField, hd, hc]

/-- Witness for C8: a mismatching confirmation next to an invalid
password (`x` against `Abcdef12`). -/
theorem confirmPassword_mismatch_reported_witness :
    ("x" : String) ≠ "Abcdef12" ∧
    ("confirmPassword", msgPasswordsNoMatch) ∈ REGISTER_USER_SCHEMA
      { firstname := "J", lastname := none, email := "",
        password := "Abcdef12", confirmPassword := "x",
        registrationToken := some "t", news := false } :=
  ⟨by decide,
   (confirmPassword_mismatch_reported
     { firstname := "J", lastname := none, email := "",
       password := "Abcdef12", confirmPassword := "x",
       registrationToken := some "t", news := false }
     "Abcdef12" "x" (by decide) (by decide)).1⟩

/-- C9 (amended): the route variant determines only the validation
schema (`chosenSchemaErrors`); once the values pass it, the endpoint and
the request-body shape are determined by the truthiness of the
normalized `registrationToken`: a present non-empty token dispatches
`registerUser` with the `userInfo`-plus-token body, otherwise
`registerAdmin` receives the flat body with the email — on both route
variants. -/
theorem dispatch_determined_by_token (isAdmin : Bool) (n : Nat)
    (hA : Option Bool) (fmt : ErrMsg → String) (aRes : AdminRegisterResult)
    (uRes : UserRegisterResult) (v : RegisterFormValues)
    (h : chosenSchemaErrors isAdmin (normalizeData v) = []) :
    calls (registerOnSubmit isAdmin n hA fmt aRes uRes v) =
      (if tokenTruthy (normalizeData v).registrationToken then
         [ApiCall.registerUser
           ⟨⟨(normalizeData v).firstname, (normalizeData v).lastname,
             (normalizeData v).password⟩,
            (normalizeData v).registrationToken.getD ""⟩]
       else
         [ApiCall.registerAdmin
           ⟨(normalizeData v).firstname, (normalizeData v).lastname,
            (normalizeData v).email, (normalizeData v).password⟩]) := by
  rw [registerOnSubmit_valid isAdmin n hA fmt aRes uRes v h, calls_append,
    calls_track_if, List.nil_append]
  by_cases ht : tokenTruthy (normalizeData v).registrationToken = true
  · rw [if_pos ht, if_pos ht, calls_handleRegisterUser]
  · rw [if_neg ht, if_neg ht, calls_handleRegisterAdmin]

/-- Witness for C9 (amended) at valid admin-variant values carrying a
registration token. -/
theorem dispatch_determined_by_token_witness :
    chosenSchemaErrors true (normalizeData
      { firstname := "John", lastname := "Doe", email := "john@example.com",
        password := "Abcdef12", confirmPassword := "Abcdef12",
        registrationToken := some "tok123", news := false }) = [] ∧
    calls (registerOnSubmit true 0 none ErrMsg.defaultMessage
      (AdminRegisterResult.failure none) (UserRegisterResult.success "t")
      { firstname := "John", lastname := "Doe", email := "john@example.com",
        password := "Abcdef12", confirmPassword := "Abcdef12",
        registrationToken := some "tok123", news := false }) =
      (if tokenTruthy (normalizeData
           { firstname := "John", lastname := "Doe",
             email := "john@example.com", password := "Abcdef12",
             confirmPassword := "Abcdef12", registrationToken := some "tok123",
             news := false }).registrationToken then
         [ApiCall.registerUser
           ⟨⟨(normalizeData
                { firstname := "John", lastname := "Doe",
                  email := "john@example.com", password := "Abcdef12",
                  confirmPassword := "Abcdef12",
                  registrationToken := some "tok123",
                  news := false }).firstname,
              (normalizeData
                { firstname := "John", lastname := "Doe",
                  email := "john@example.com", password := "Abcdef12",
                  confirmPassword := "Abcdef12",
                  registrationToken := some "tok123",
                  news := false }).lastname,
              (normalizeData
                { firstname := "John", lastname := "Doe",
                  email := "john@example.com", password := "Abcdef12",
                  confirmPassword := "Abcdef12",
                  registrationToken := some "tok123",
                  news := false }).password⟩,
            (normalizeData
              { firstname := "John", lastname := "Doe",
                email := "john@example.com", password := "Abcdef12",
                confirmPassword := "Abcdef12",
                registrationToken := some "tok123",
                news := false }).registrationToken.getD ""⟩]
       else
         [ApiCall.registerAdmin
           ⟨(normalizeData
               { firstname := "John", lastname := "Doe",
                 email := "john@example.com", password := "Abcdef12",
                 confirmPassword := "Abcdef12",
                 registrationToken := some "tok123",
                 news := false }).firstname,
            (normalizeData
              { firstname := "John", lastname := "Doe",
                email := "john@example.com", password := "Abcdef12",
                confirmPassword := "Abcdef12",
                registrationToken := some "tok123",
                news := false }).lastname,
            (normalizeData
              { firstname := "John", lastname := "Doe",
                email := "john@example.com", password := "Abcdef12",
                confirmPassword := "Abcdef12",
                registrationToken := some "tok123",
                news := false }).email,
            (normalizeData
              { firstname := "John", lastname := "Doe",
                email := "john@example.com", password := "Abcdef12",
                confirmPassword := "Abcdef12",
                registrationToken := some "tok123",
                news := false }).password⟩]) :=
  ⟨by decide,
   dispatch_determined_by_token true 0 none ErrMsg.defaultMessage
     (AdminRegisterResult.failure none) (UserRegisterResult.success "t")
     { firstname := "John", lastname := "Doe", email := "john@example.com",
       password := "Abcdef12", confirmPassword := "Abcdef12",
       registrationToken := some "tok123", news := false }
     (by decide)⟩

/-- C9 counterexample: on the `register-admin` route with a registration
token present in the query, the values validate against the admin schema
yet the submit dispatches `registerUser` — not the flat `registerAdmin`
call with the email that the claim assigns to this variant. -/
theorem variant_endpoint_counterexample :
    calls (registerOnSubmit true 0 none ErrMsg.defaultMessage
      (AdminRegisterResult.failure none) (UserRegisterResult.success "t")
      { firstname := "John", lastname := "Doe", email := "john@example.com",
        password := "Abcdef12", confirmPassword := "Abcdef12",
        registrationToken := some "tok123", news := false }) =
      [ApiCall.registerUser
        { userInfo :=
            { firstname := "John", lastname := some "Doe",
              password := "Abcdef12" },
          registrationToken := "tok123" }] ∧
    ApiCall.registerUser
      { userInfo :=
          { firstname := "John", lastname := some "Doe",
            password := "Abcdef12" },
        registrationToken := "tok123" } ≠
      ApiCall.registerAdmin
        { firstname := "John", lastname := some "Doe",
          email := "john@example.com", password := "Abcdef12" } := by
  decide

/-- C10: on a pre-fetch error of the registration info, the effect hook
shows a warning notification carrying the computed message and navigates
to `/auth/oops` with the URI-encoded message in the `info` query
parameter; without an error it does nothing. -/
theorem registration_info_error_redirect (e : RegistrationInfoError) :
    registerInfoEffect (some e) =
      [Effect.notify "warning" (registrationInfoErrorMessage e),
       Effect.navigate
         ("/auth/oops?info=" ++
           encodeURIComponent (registrationInfoErrorMessage e)) none] ∧
    registerInfoEffect none = [] :=
  ⟨rfl, rfl⟩

end StrapiAuth
